import Mathlib

/-!
# Verification of the Fibonacci teaching widget core (`src/fibonacci.py`)

A shallow embedding of the computational core of the repository: the
Fibonacci sequence generator (`generate_fibonacci`, lines 49-55), the
single-value calculator (`fib_calc`, lines 161-165), the spiral radius
normalization (line 63), the multiple-choice answer-scoring loop
(lines 270-282 with the question table of lines 194-258), and the
pattern-recognition free-text check (lines 317-331).

Python integers are unbounded and every value produced here is
non-negative, so sequence values are modelled as `Nat`; function
arguments that Python would accept as negative ints are modelled as
`Int`, with `Int.toNat` capturing that `range(n)` is empty for `n ≤ 0`.
Fallible steps (a `KeyError` on a dict lookup, `max()` on an empty
list, a division by zero) are modelled with `Option`, `none` marking
the failure event.
-/

set_option autoImplicit false

namespace Fib

/-- The loop body of `generate_fibonacci` (src/fibonacci.py lines 50-55):
starting from the pair `(a, b)`, append `a` and step to `(b, a + b)`,
`k` times. -/
def fibLoop : Nat → Nat × Nat → List Nat
  | 0, _ => []
  | k + 1, (a, b) => a :: fibLoop k (b, a + b)

/-- `generate_fibonacci(n)` (src/fibonacci.py lines 49-55): the loop runs
`range(n)` times starting from `a, b = 0, 1`; `range(n)` is empty for
`n ≤ 0`, which `Int.toNat` captures. -/
def generate_fibonacci (n : Int) : List Nat :=
  fibLoop n.toNat (0, 1)

/-- The loop body of `fib_calc` (src/fibonacci.py lines 162-165): step the
pair `(a, b)` to `(b, a + b)` `k` times and return the final `a`. -/
def fibCalcLoop : Nat → Nat × Nat → Nat
  | 0, (a, _) => a
  | k + 1, (a, b) => fibCalcLoop k (b, a + b)

/-- `fib_calc(n)` (src/fibonacci.py lines 161-165): iterate from
`a, b = 0, 1` for `range(n)` steps and return `a`. -/
def fib_calc (n : Int) : Nat :=
  fibCalcLoop n.toNat (0, 1)

/-- The mathematical reference recurrence seeded at `(a, b)`: used only to
state and prove index-wise facts about `fibLoop`. -/
def fibRec (a b : Nat) : Nat → Nat
  | 0 => a
  | 1 => b
  | n + 2 => fibRec a b n + fibRec a b (n + 1)

/-- Python's `max(list)` (src/fibonacci.py line 63): raises `ValueError`
on an empty list (modelled as `none`), otherwise folds `max`. -/
def pyMax : List Nat → Option Nat
  | [] => none
  | x :: xs => some (xs.foldl Nat.max x)

/-- The radius normalization `np.array(fib) / max(fib) * 5`
(src/fibonacci.py line 63), with division modelled over `ℚ` as a checked
operation: `none` marks the failure events — `max()` on an empty list
(Python `ValueError`) or a division by zero (numpy emits a divide
warning and produces NaN radii, not numbers). -/
def project_spiral_radius (fib : List Nat) : Option (List ℚ) :=
  match pyMax fib with
  | none => none
  | some m => if m = 0 then none else some (fib.map fun v => (v : ℚ) / (m : ℚ) * 5)

/-- A multiple-choice quiz question (src/fibonacci.py lines 195-199): a
record with its `number`, prompt, option strings and correct option. -/
structure QuizQuestion where
  number : Nat
  question : String
  options : List String
  correct : String
deriving DecidableEq, Repr

/-- One row of the `wrong_answers` table (src/fibonacci.py lines 278-282):
the question number, the submitted answer and the correct answer. -/
structure Mismatch where
  qnumber : Nat
  given : String
  correctAns : String
deriving DecidableEq, Repr

/-- The `Check Answers` loop (src/fibonacci.py lines 271-282) with its two
accumulators `score` and `wrong_answers`. The Python dict lookup
`user_answers[q['number']]` raises `KeyError` when the key is absent;
the attempt is therefore a partial map `Nat → Option String` and a
missing answer makes the whole loop fail (`none`). -/
def scoreLoop : List QuizQuestion → (Nat → Option String) → Nat → List Mismatch →
    Option (Nat × List Mismatch)
  | [], _, score, wrong => some (score, wrong)
  | q :: qs, ua, score, wrong =>
    match ua q.number with
    | none => none
    | some ans =>
      if ans = q.correct then
        scoreLoop qs ua (score + 1) wrong
      else
        scoreLoop qs ua score (wrong ++ [⟨q.number, ans, q.correct⟩])

/-- `score_quiz` of the spec: the `Check Answers` handler
(src/fibonacci.py lines 270-282) run from `score = 0`,
`wrong_answers = []`, returning the final pair. -/
def score_quiz (qs : List QuizQuestion) (ua : Nat → Option String) :
    Option (Nat × List Mismatch) :=
  scoreLoop qs ua 0 []

/-- The static question table (src/fibonacci.py lines 194-258): ten
questions, numbered 1 through 10. -/
def questions : List QuizQuestion :=
  [⟨1, "How is each Fibonacci number defined?",
    ["Previous number + 2", "Sum of two preceding numbers", "Previous number × 1.618", "n² - 1"],
    "Sum of two preceding numbers"⟩,
   ⟨2, "What are the first two Fibonacci numbers (F₀ and F₁)?",
    ["0 and 1", "1 and 1", "1 and 2", "2 and 3"],
    "0 and 1"⟩,
   ⟨3, "What does Fₙ₊₁/Fₙ approach as n increases?",
    ["π (3.1416...)", "Golden Ratio (1.618...)", "Euler's Number (2.718...)", "√2 (1.414...)"],
    "Golden Ratio (1.618...)"⟩,
   ⟨4, "Where is the Fibonacci sequence NOT commonly observed?",
    ["Flower petal counts", "Hurricane spiral patterns", "Atomic electron configurations",
     "Pineapple spiral patterns"],
    "Atomic electron configurations"⟩,
   ⟨5, "What is F₋ₙ in the Fibonacci sequence?",
    ["Same as Fₙ", "(-1)ⁿ⁺¹Fₙ", "Fₙ/φ", "Undefined"],
    "(-1)ⁿ⁺¹Fₙ"⟩,
   ⟨6, "What does Binet's formula calculate?",
    ["Golden ratio approximation", "Exact Fibonacci numbers", "Prime numbers in the sequence",
     "Sum of first n Fibonacci numbers"],
    "Exact Fibonacci numbers"⟩,
   ⟨7, "How do Lucas numbers relate to Fibonacci?",
    ["Same recurrence with different starting points", "Squares of Fibonacci numbers",
     "Every 3rd Fibonacci number", "No relation"],
    "Same recurrence with different starting points"⟩,
   ⟨8, "What's special about the sum F₁² + F₂² + ... + Fₙ²?",
    ["Equals Fₙ × Fₙ₊₁", "Always prime", "Forms geometric progression", "Equals φⁿ"],
    "Equals Fₙ × Fₙ₊₁"⟩,
   ⟨9, "What's true about every 3rd Fibonacci number?",
    ["Always even", "Always odd", "Always prime", "Always square"],
    "Always even"⟩,
   ⟨10, "What is gcd(Fₙ, Fₘ)?",
    ["Fₙ₊ₘ", "F_gcd(n,m)", "gcd(n,m)", "Always 1"],
    "F_gcd(n,m)"⟩]

/-- The denominator displayed by the score message at
src/fibonacci.py line 284, which shows the score out of 10. -/
def displayed_total : Nat := 10

/-- Python's no-argument `str.split()` over the character list: split on
runs of whitespace, discarding empty tokens (the accumulator holds the
current token reversed). Models `answers.split()` at
src/fibonacci.py line 320. -/
def splitWsAux : List Char → List Char → List (List Char)
  | [], [] => []
  | [], acc => [acc.reverse]
  | c :: cs, acc =>
    if c.isWhitespace then
      if acc = [] then splitWsAux cs []
      else acc.reverse :: splitWsAux cs []
    else splitWsAux cs (c :: acc)

/-- The whitespace-separated tokens of a string, as strings — the value
of `answers.split()` (src/fibonacci.py line 320). -/
def pyTokens (s : String) : List String :=
  (splitWsAux s.data []).map String.mk

/-- Result of the pattern-recognition check: `valid` is false when the
token count differs from 3 (the `st.warning` branch, line 324);
`correct` reports elementwise equality with the answer key. -/
structure PatternResult where
  valid : Bool
  correct : Bool
deriving DecidableEq, Repr

/-- `check_pattern` of the spec: the pattern-recognition handler
(src/fibonacci.py lines 320-331). It splits the submission on
whitespace, treats any token count other than 3 as a validation failure
(not scored, `correct` is irrelevant and modelled as `false`), and
otherwise compares the token list with `correct_ans` for equality. The
surrounding `if answers:` (line 319) merely skips the check while the
text box is empty and is presentation, not scoring. -/
def check_pattern (answers : String) (correct_ans : List String) : PatternResult :=
  let user_ans := pyTokens answers
  if user_ans.length ≠ 3 then ⟨false, false⟩
  else ⟨true, user_ans = correct_ans⟩

/-- The fixed answer key `correct_ans = ["13", "21", "34"]`
(src/fibonacci.py line 321). -/
def pattern_key : List String := ["13", "21", "34"]

/-! ### Lemmas about the sequence loop -/

theorem fibLoop_length : ∀ (n : Nat) (s : Nat × Nat), (fibLoop n s).length = n := by
  intro n
  induction n with
  | zero => intro s; rfl
  | succ k ih =>
    intro s
    cases s with
    | mk a b => simpa [fibLoop] using ih (b, a + b)

theorem fibRec_shift (a b : Nat) : ∀ i, fibRec b (a + b) i = fibRec a b (i + 1) := by
  have key : ∀ i, fibRec b (a + b) i = fibRec a b (i + 1) ∧
      fibRec b (a + b) (i + 1) = fibRec a b (i + 2) := by
    intro i
    induction i with
    | zero => exact ⟨rfl, rfl⟩
    | succ j ih =>
      refine ⟨ih.2, ?_⟩
      show fibRec b (a + b) j + fibRec b (a + b) (j + 1) =
        fibRec a b (j + 1) + fibRec a b (j + 2)
      rw [ih.1, ih.2]
  exact fun i => (key i).1

theorem fibLoop_getD :
    ∀ (n i a b d : Nat), i < n → (fibLoop n (a, b)).getD i d = fibRec a b i := by
  intro n
  induction n with
  | zero => intro i a b d h; exact absurd h (Nat.not_lt_zero i)
  | succ k ih =>
    intro i a b d h
    cases i with
    | zero => rfl
    | succ j =>
      have step : (fibLoop (k + 1) (a, b)).getD (j + 1) d =
          (fibLoop k (b, a + b)).getD j d := rfl
      rw [step, ih j b (a + b) d (Nat.lt_of_succ_lt_succ h), fibRec_shift]

theorem fibLoop_getLast :
    ∀ (k a b : Nat), (fibLoop (k + 1) (a, b)).getLast? = some (fibCalcLoop k (a, b)) := by
  intro k
  induction k with
  | zero => intro a b; rfl
  | succ j ih =>
    intro a b
    have h1 : fibLoop (j + 2) (a, b) = a :: b :: fibLoop j (a + b, b + (a + b)) := rfl
    rw [h1, List.getLast?_cons_cons]
    exact ih b (a + b)

theorem fibRec_le_succ : ∀ i, fibRec 0 1 i ≤ fibRec 0 1 (i + 1)
  | 0 => Nat.zero_le 1
  | i + 1 => Nat.le_add_left (fibRec 0 1 (i + 1)) (fibRec 0 1 i)

theorem generate_fibonacci_natCast (n : Nat) :
    generate_fibonacci (n : Int) = fibLoop n (0, 1) := rfl

/-! ### Claims about the sequence generator -/

/-- C1: for every non-negative integer N, `generate_fibonacci N` returns a
sequence of exactly N elements (empty when N = 0) with element 0 = 0 and
element 1 = 1 when N ≥ 2, element i = element (i-1) + element (i-2) for
every 2 ≤ i < N, and in particular the sequences for N = 1, 2 and 10 are
[0], [0, 1] and [0, 1, 1, 2, 3, 5, 8, 13, 21, 34]. -/
theorem C1_generate_sequence_correct (N : Nat) :
    (generate_fibonacci (N : Int)).length = N ∧
    (2 ≤ N → (generate_fibonacci (N : Int)).getD 0 0 = 0 ∧
      (generate_fibonacci (N : Int)).getD 1 0 = 1) ∧
    (∀ i, 2 ≤ i → i < N →
      (generate_fibonacci (N : Int)).getD i 0 =
        (generate_fibonacci (N : Int)).getD (i - 1) 0 +
          (generate_fibonacci (N : Int)).getD (i - 2) 0) ∧
    generate_fibonacci 0 = ([] : List Nat) ∧
    generate_fibonacci 1 = [0] ∧
    generate_fibonacci 2 = [0, 1] ∧
    generate_fibonacci 10 = [0, 1, 1, 2, 3, 5, 8, 13, 21, 34] := by
  rw [generate_fibonacci_natCast]
  refine ⟨fibLoop_length N (0, 1), ?_, ?_, by decide, by decide, by decide, by decide⟩
  · intro h2
    exact ⟨(fibLoop_getD N 0 0 1 0 (by omega)).trans rfl,
      (fibLoop_getD N 1 0 1 0 (by omega)).trans rfl⟩
  · intro i h2 hN
    obtain ⟨j, rfl⟩ : ∃ j, i = j + 2 := ⟨i - 2, by omega⟩
    have e1 : j + 2 - 1 = j + 1 := by omega
    have e2 : j + 2 - 2 = j := by omega
    rw [e1, e2, fibLoop_getD N (j + 2) 0 1 0 hN,
      fibLoop_getD N (j + 1) 0 1 0 (by omega),
      fibLoop_getD N j 0 1 0 (by omega)]
    show fibRec 0 1 j + fibRec 0 1 (j + 1) = fibRec 0 1 (j + 1) + fibRec 0 1 j
    exact Nat.add_comm _ _

/-- Witness for C1 at N = 10 and i = 5: the head is 0 and
element 5 equals element 4 plus element 3. -/
theorem C1_generate_sequence_correct_witness :
    (generate_fibonacci ((10 : Nat) : Int)).getD 0 0 = 0 ∧
    (generate_fibonacci ((10 : Nat) : Int)).getD 5 0 =
      (generate_fibonacci ((10 : Nat) : Int)).getD 4 0 +
        (generate_fibonacci ((10 : Nat) : Int)).getD 3 0 := by
  refine ⟨((C1_generate_sequence_correct 10).2.1 (by decide)).1, ?_⟩
  exact (C1_generate_sequence_correct 10).2.2.1 5 (by decide) (by decide)

/-- C2: for every non-negative n, `fib_calc n` equals the last element of
`generate_fibonacci (n + 1)`. -/
theorem C2_fib_calc_eq_last (n : Nat) :
    (generate_fibonacci ((n : Int) + 1)).getLast? = some (fib_calc (n : Int)) := by
  have e1 : generate_fibonacci ((n : Int) + 1) = fibLoop (n + 1) (0, 1) := by
    simp [generate_fibonacci]
  have e2 : fib_calc (n : Int) = fibCalcLoop n (0, 1) := by
    simp [fib_calc]
  rw [e1, e2]
  exact fibLoop_getLast n 0 1

/-- C6 counterexample: at the negative input -1, `generate_fibonacci`
silently returns the empty list and `fib_calc` silently returns 0 — the
claimed InvalidArgument failure does not exist, because Python's
`range(n)` is simply empty for negative `n`. -/
theorem C6_negative_counterexample :
    generate_fibonacci (-1) = ([] : List Nat) ∧ fib_calc (-1) = 0 := by
  decide

/-- C6 as amended: for every negative n, `generate_fibonacci n` silently
returns the empty sequence and `fib_calc n` silently returns 0; neither
signals a failure. -/
theorem C6_negative_silent (n : Int) (h : n < 0) :
    generate_fibonacci n = ([] : List Nat) ∧ fib_calc n = 0 := by
  have h0 : n.toNat = 0 := Int.toNat_of_nonpos (le_of_lt h)
  constructor
  · show fibLoop n.toNat (0, 1) = []
    rw [h0]
    rfl
  · show fibCalcLoop n.toNat (0, 1) = 0
    rw [h0]
    rfl

/-- Witness for the amended C6 at n = -2. -/
theorem C6_negative_silent_witness :
    generate_fibonacci (-2) = ([] : List Nat) ∧ fib_calc (-2) = 0 :=
  C6_negative_silent (-2) (by decide)

/-- C9: for every N ≥ 1 the generated sequence is monotonically
non-decreasing: element i ≤ element (i + 1) for every i < N - 1. -/
theorem C9_generate_sequence_monotone (N : Nat) (h1 : 1 ≤ N) :
    ∀ i, i < N - 1 →
      (generate_fibonacci (N : Int)).getD i 0 ≤
        (generate_fibonacci (N : Int)).getD (i + 1) 0 := by
  intro i hi
  rw [generate_fibonacci_natCast, fibLoop_getD N i 0 1 0 (by omega),
    fibLoop_getD N (i + 1) 0 1 0 (by omega)]
  exact fibRec_le_succ i

/-- Witness for C9 at N = 3 and i = 1: element 1 ≤ element 2. -/
theorem C9_generate_sequence_monotone_witness :
    (generate_fibonacci ((3 : Nat) : Int)).getD 1 0 ≤
      (generate_fibonacci ((3 : Nat) : Int)).getD 2 0 :=
  C9_generate_sequence_monotone 3 (by decide) 1 (by decide)

/-! ### Lemmas about the scoring loop -/

theorem scoreLoop_all_correct :
    ∀ (qs : List QuizQuestion) (ua : Nat → Option String) (s : Nat) (w : List Mismatch),
      (∀ q ∈ qs, ua q.number = some q.correct) →
      scoreLoop qs ua s w = some (s + qs.length, w) := by
  intro qs
  induction qs with
  | nil => intro ua s w _; rfl
  | cons q qs ih =>
    intro ua s w h
    have hq : ua q.number = some q.correct := h q (List.mem_cons_self q qs)
    have hrest : ∀ p ∈ qs, ua p.number = some p.correct :=
      fun p hp => h p (List.mem_cons_of_mem q hp)
    simp only [scoreLoop, hq, if_pos]
    rw [ih ua (s + 1) w hrest]
    have harith : s + 1 + qs.length = s + (q :: qs).length := by
      simp only [List.length_cons]
      omega
    rw [harith]

theorem scoreLoop_skip_correct :
    ∀ (qs1 rest : List QuizQuestion) (ua : Nat → Option String) (s : Nat) (w : List Mismatch),
      (∀ q ∈ qs1, ua q.number = some q.correct) →
      scoreLoop (qs1 ++ rest) ua s w = scoreLoop rest ua (s + qs1.length) w := by
  intro qs1
  induction qs1 with
  | nil => intro rest ua s w _; rfl
  | cons q qs ih =>
    intro rest ua s w h
    have hq : ua q.number = some q.correct := h q (List.mem_cons_self q qs)
    have hrest : ∀ p ∈ qs, ua p.number = some p.correct :=
      fun p hp => h p (List.mem_cons_of_mem q hp)
    simp only [List.cons_append, scoreLoop, hq, if_pos, List.append_eq]
    rw [ih rest ua (s + 1) w hrest]
    have harith : s + 1 + qs.length = s + (q :: qs).length := by
      simp only [List.length_cons]
      omega
    rw [harith]

theorem scoreLoop_bound :
    ∀ (qs : List QuizQuestion) (ua : Nat → Option String) (s : Nat) (w : List Mismatch)
      (s2 : Nat) (w2 : List Mismatch),
      scoreLoop qs ua s w = some (s2, w2) → s2 ≤ s + qs.length := by
  intro qs
  induction qs with
  | nil =>
    intro ua s w s2 w2 h
    have hs : s = s2 := congrArg Prod.fst (Option.some.inj h)
    omega
  | cons q qs ih =>
    intro ua s w s2 w2 h
    cases hu : ua q.number with
    | none => rw [scoreLoop, hu] at h; cases h
    | some ans =>
      simp only [scoreLoop, hu] at h
      by_cases hc : ans = q.correct
      · rw [if_pos hc] at h
        have := ih ua (s + 1) w s2 w2 h
        simp only [List.length_cons]
        omega
      · rw [if_neg hc] at h
        have := ih ua s (w ++ [⟨q.number, ans, q.correct⟩]) s2 w2 h
        simp only [List.length_cons]
        omega

theorem scoreLoop_none :
    ∀ (qs : List QuizQuestion) (ua : Nat → Option String) (s : Nat) (w : List Mismatch)
      (q : QuizQuestion), q ∈ qs → ua q.number = none → scoreLoop qs ua s w = none := by
  intro qs
  induction qs with
  | nil => intro ua s w q hq _; cases hq
  | cons p qs ih =>
    intro ua s w q hq hnone
    rcases List.mem_cons.mp hq with rfl | hmem
    · rw [scoreLoop, hnone]
    · cases hu : ua p.number with
      | none => rw [scoreLoop, hu]
      | some ans =>
        simp only [scoreLoop, hu]
        by_cases hc : ans = p.correct
        · rw [if_pos hc]
          exact ih ua (s + 1) w q hmem hnone
        · rw [if_neg hc]
          exact ih ua s (w ++ [⟨p.number, ans, p.correct⟩]) q hmem hnone

/-! ### Claims about the quiz scorer -/

/-- C3: when every submitted answer is string-equal to its question's
correct option, the scoring loop returns score = total with an empty
mismatch list; and when exactly one answer differs (all others
matching), it returns score = total - 1 with exactly one mismatch entry
carrying that question's number, the given answer and the correct
answer. -/
theorem C3_score_quiz_correct (qs : List QuizQuestion) (ua : Nat → Option String) :
    ((∀ q ∈ qs, ua q.number = some q.correct) →
      score_quiz qs ua = some (qs.length, [])) ∧
    (∀ (qs1 : List QuizQuestion) (qbad : QuizQuestion) (qs2 : List QuizQuestion) (ans : String),
      qs = qs1 ++ qbad :: qs2 →
      (∀ q ∈ qs1, ua q.number = some q.correct) →
      (∀ q ∈ qs2, ua q.number = some q.correct) →
      ua qbad.number = some ans →
      ans ≠ qbad.correct →
      score_quiz qs ua = some (qs.length - 1, [⟨qbad.number, ans, qbad.correct⟩])) := by
  constructor
  · intro h
    have := scoreLoop_all_correct qs ua 0 [] h
    simpa [score_quiz] using this
  · intro qs1 qbad qs2 ans hsplit h1 h2 hbad hne
    subst hsplit
    show scoreLoop (qs1 ++ qbad :: qs2) ua 0 [] = _
    rw [scoreLoop_skip_correct qs1 (qbad :: qs2) ua 0 [] h1]
    simp only [scoreLoop, hbad]
    rw [if_neg hne]
    simp only [List.nil_append]
    rw [scoreLoop_all_correct qs2 ua (0 + qs1.length) [⟨qbad.number, ans, qbad.correct⟩] h2]
    have harith : 0 + qs1.length + qs2.length = (qs1 ++ qbad :: qs2).length - 1 := by
      simp only [List.length_append, List.length_cons]
      omega
    rw [harith]

/-- Witness for C3 on a concrete two-question quiz where the second
answer is wrong: score 1 of 2 and one mismatch row for question 2. -/
theorem C3_score_quiz_correct_witness :
    score_quiz [⟨1, "q1", ["a", "b"], "a"⟩, ⟨2, "q2", ["c", "d"], "d"⟩]
        (fun k => if k = 1 then some "a" else some "c") =
      some (1, [⟨2, "c", "d"⟩]) := by
  have h := (C3_score_quiz_correct [⟨1, "q1", ["a", "b"], "a"⟩, ⟨2, "q2", ["c", "d"], "d"⟩]
      (fun k => if k = 1 then some "a" else some "c")).2
    [⟨1, "q1", ["a", "b"], "a"⟩] ⟨2, "q2", ["c", "d"], "d"⟩ [] "c"
    rfl (by decide) (by decide) (by decide) (by decide)
  simpa using h

/-- C7 counterexample: on a one-question quiz with no submitted answer,
the scoring loop fails (the dict lookup `user_answers[q['number']]`
raises `KeyError`, modelled as `none`) instead of counting the question
as incorrect and returning a normal result. -/
theorem C7_missing_answer_counterexample :
    score_quiz [⟨1, "q", ["a", "b"], "a"⟩] (fun _ => none) = none := rfl

/-- C7 as amended: whenever some question of the list has no submitted
answer, the scoring loop fails with a `KeyError` (modelled as `none`);
the missing answer is never scored as incorrect. -/
theorem C7_missing_answer_is_error (qs : List QuizQuestion) (ua : Nat → Option String)
    (q : QuizQuestion) (hq : q ∈ qs) (hnone : ua q.number = none) :
    score_quiz qs ua = none :=
  scoreLoop_none qs ua 0 [] q hq hnone

/-- Witness for the amended C7 on a concrete quiz with an absent answer. -/
theorem C7_missing_answer_is_error_witness :
    score_quiz [⟨2, "p", ["x", "y"], "x"⟩] (fun _ => none) = none :=
  C7_missing_answer_is_error [⟨2, "p", ["x", "y"], "x"⟩] (fun _ => none)
    ⟨2, "p", ["x", "y"], "x"⟩ (by decide) rfl

/-- C8: every successful scoring run satisfies score ≤ number of
questions (and scores are naturals, so 0 ≤ score), and the displayed
denominator 10 of the score message equals the length of the actual
question table. -/
theorem C8_score_le_total :
    (∀ (qs : List QuizQuestion) (ua : Nat → Option String) (s : Nat) (w : List Mismatch),
      score_quiz qs ua = some (s, w) → s ≤ qs.length) ∧
    displayed_total = questions.length := by
  refine ⟨?_, rfl⟩
  intro qs ua s w h
  have := scoreLoop_bound qs ua 0 [] s w h
  omega

/-- Witness for C8 on a concrete one-question quiz answered wrongly:
the score 0 is bounded by the question count 1, and the displayed
denominator matches the table length. -/
theorem C8_score_le_total_witness :
    (0 : Nat) ≤ ([⟨1, "q", ["a", "b"], "a"⟩] : List QuizQuestion).length ∧
      displayed_total = questions.length :=
  ⟨C8_score_le_total.1 [⟨1, "q", ["a", "b"], "a"⟩] (fun _ => some "b") 0 [⟨1, "b", "a"⟩] rfl,
    C8_score_le_total.2⟩

/-! ### Claims about the pattern check and the spiral projection -/

/-- C4: `check_pattern` splits the submission on whitespace and requires
exactly 3 tokens — any other token count is a validation failure
(valid = false, no fatal error since the function is total); a 3-token
submission is valid and correct exactly when its tokens equal the
answer key elementwise; in particular "13 21 34" is valid and correct,
"13 21" is invalid, and "1 2 3" is valid but incorrect against the key
["13", "21", "34"]. -/
theorem C4_check_pattern_correct (s : String) (key : List String) :
    ((pyTokens s).length ≠ 3 → (check_pattern s key).valid = false) ∧
    ((pyTokens s).length = 3 →
      (check_pattern s key).valid = true ∧
      ((check_pattern s key).correct = true ↔ pyTokens s = key)) ∧
    check_pattern "13 21 34" pattern_key = ⟨true, true⟩ ∧
    (check_pattern "13 21" pattern_key).valid = false ∧
    check_pattern "1 2 3" pattern_key = ⟨true, false⟩ := by
  refine ⟨?_, ?_, by decide, by decide, by decide⟩
  · intro h
    simp [check_pattern, h]
  · intro h
    simp [check_pattern, h]

/-- Witness for C4 at the concrete submissions "13 21" (2 tokens,
invalid) and "13 21 34" (3 tokens, valid). -/
theorem C4_check_pattern_correct_witness :
    (check_pattern "13 21" pattern_key).valid = false ∧
      (check_pattern "13 21 34" pattern_key).valid = true :=
  ⟨(C4_check_pattern_correct "13 21" pattern_key).1 (by decide),
    ((C4_check_pattern_correct "13 21 34" pattern_key).2.1 (by decide)).1⟩

/-- C10: the pattern check is insensitive to the amount and kind of
whitespace — any submission whose whitespace-separated tokens are
exactly ["13", "21", "34"] is accepted as valid and correct, because
`answers.split()` discards all surrounding whitespace. -/
theorem C10_whitespace_insensitive (s : String) (h : pyTokens s = pattern_key) :
    check_pattern s pattern_key = ⟨true, true⟩ := by
  simp [check_pattern, h, pattern_key]

/-- Witness for C10 at the ragged submission with doubled and trailing
whitespace, accepted identically to "13 21 34". -/
theorem C10_whitespace_insensitive_witness :
    check_pattern "  13   21  34 " pattern_key = ⟨true, true⟩ :=
  C10_whitespace_insensitive "  13   21  34 " (by decide)

/-- C5 counterexample: the N = 1 sequence [0] has maximum 0, and the
radius normalization `np.array(fib) / max(fib) * 5` divides by zero on
it (numpy emits a divide warning and yields NaN, modelled as `none`):
no point with radius 0 is produced. -/
theorem C5_zero_max_counterexample :
    pyMax (generate_fibonacci 1) = some 0 ∧
      project_spiral_radius (generate_fibonacci 1) = none := by
  decide

/-- C5 as amended: the normalization has no guard — whenever the
sequence's maximum is 0 it divides by zero (failure, NaN radii in
numpy) instead of yielding radius 0; only for a nonzero maximum does it
produce the radii value / max · 5. -/
theorem C5_zero_max_divides (fib : List Nat) (m : Nat) (hm : pyMax fib = some m) :
    (m = 0 → project_spiral_radius fib = none) ∧
    (m ≠ 0 → project_spiral_radius fib = some (fib.map fun v => (v : ℚ) / (m : ℚ) * 5)) := by
  constructor <;> intro h <;> simp [project_spiral_radius, hm, h]

/-- Witness for the amended C5: on [0] the division by zero fires; on
[0, 1] the maximum is 1 and the radii come out as [0, 5]. -/
theorem C5_zero_max_divides_witness :
    project_spiral_radius [0] = none ∧ project_spiral_radius [0, 1] = some [0, 5] := by
  refine ⟨(C5_zero_max_divides [0] 0 rfl).1 rfl, ?_⟩
  have h := (C5_zero_max_divides [0, 1] 1 rfl).2 one_ne_zero
  rw [h]
  norm_num

end Fib
